import Mathlib

/-!
Verification of the wiretap structured-tracing library.

The definitions below are a shallow embedding of the Python sources:
  * `tracing/trace.py`      — the fluent `Trace` builder,
  * `tracing/activity.py`   — the `Activity` lifecycle state machine,
    its guards (`ActivityStartLogged`, `OneTimeFalse`, `PendingTrace`)
    and the `__enter__`/`__exit__` context-manager protocol,
  * `telemetry.py`          — the `telemetry_context` manager,
  * `types/types.py`        — the parent-linked `Node` and its `depth`,
  * `scopes/activity.py`    — `ActivityScope.depth`,
  * `loggers.py`            — `BasicLogger`'s elapsed clock,
  * `counter.py`            — the `Counter` statistics helper,
  * `filters/format_args.py` and `filters/format_result.py`
                            — the argument/result formatting filters.

Python dictionaries are modelled as ordered association lists, Python
values (`Any`) as the inductive `Val`, mutation as explicit state
passing, and `raise` as an explicit error result.
-/

/-- Model of a Python value (`Any`): what trace details and
attachments may hold. -/
inductive Val where
  | vnone
  | vstr (s : String)
  | vint (n : Int)
  | vbool (b : Bool)
  | vdict (fields : List (String × Val))

/-- Lookup in a Python dict modelled as an ordered association list
(first binding of the key wins, as dict keys are unique). -/
def dictLookup (k : String) : List (String × Val) → Option Val
  | [] => none
  | kv :: rest => if kv.1 = k then some kv.2 else dictLookup k rest

/-- Python's `a | b` on dicts: the keys of `a` in their order, each
mapped to `b`'s value when `b` also binds the key, followed by the
bindings of `b` whose keys are absent from `a`. -/
def pyDictUnion (a b : List (String × Val)) : List (String × Val) :=
  a.map (fun kv => (kv.1, (dictLookup kv.1 b).getD kv.2))
    ++ b.filter (fun kv => (dictLookup kv.1 a).isNone)

/-- Python logging severity levels used by the builders. -/
def levelDEBUG : Nat := 10

def levelINFO : Nat := 20

def levelWARNING : Nat := 30

def levelERROR : Nat := 40

/-- Embeds `tracing/trace.py`, class `Trace`: the mutable fields set by
`__init__` (name from the argument or the caller; the `log` callback is
the state threading itself here). -/
structure Trace where
  name : String
  message : Option String := none
  details : List (String × Val) := []
  attachment : Option Val := none
  level : Nat := levelINFO
  excInfo : Option Bool := none

/-- Embeds `Trace.__init__` with a concrete trace name. -/
def Trace.mk0 (name : String) : Trace := { name := name }

/-- Embeds `Trace.with_message`. -/
def Trace.with_message (value : Option String) (t : Trace) : Trace :=
  { t with message := value }

/-- Embeds `Trace.with_details`: `self.details = self.details | kwargs`. -/
def Trace.with_details (kwargs : List (String × Val)) (t : Trace) : Trace :=
  { t with details := pyDictUnion t.details kwargs }

/-- Embeds `Trace.with_attachment`. -/
def Trace.with_attachment (value : Val) (t : Trace) : Trace :=
  { t with attachment := some value }

/-- Embeds `Trace.with_exc_info`. -/
def Trace.with_exc_info (value : Bool) (t : Trace) : Trace :=
  { t with excInfo := some value }

/-- Embeds `Trace.with_level`. -/
def Trace.with_level (value : Nat) (t : Trace) : Trace :=
  { t with level := value }

/-- Embeds `Trace.as_debug`. -/
def Trace.as_debug (t : Trace) : Trace := { t with level := levelDEBUG }

/-- Embeds `Trace.as_info`. -/
def Trace.as_info (t : Trace) : Trace := { t with level := levelINFO }

/-- Embeds `Trace.as_warning`. -/
def Trace.as_warning (t : Trace) : Trace := { t with level := levelWARNING }

/-- Embeds `Trace.as_error`. -/
def Trace.as_error (t : Trace) : Trace := { t with level := levelERROR }

/-- All fields of a trace other than `message` agree. -/
def SameButMessage (t u : Trace) : Prop :=
  u.name = t.name ∧ u.details = t.details ∧ u.attachment = t.attachment
    ∧ u.level = t.level ∧ u.excInfo = t.excInfo

/-- All fields of a trace other than `details` agree. -/
def SameButDetails (t u : Trace) : Prop :=
  u.name = t.name ∧ u.message = t.message ∧ u.attachment = t.attachment
    ∧ u.level = t.level ∧ u.excInfo = t.excInfo

/-- All fields of a trace other than `attachment` agree. -/
def SameButAttachment (t u : Trace) : Prop :=
  u.name = t.name ∧ u.message = t.message ∧ u.details = t.details
    ∧ u.level = t.level ∧ u.excInfo = t.excInfo

/-- All fields of a trace other than `level` agree. -/
def SameButLevel (t u : Trace) : Prop :=
  u.name = t.name ∧ u.message = t.message ∧ u.details = t.details
    ∧ u.attachment = t.attachment ∧ u.excInfo = t.excInfo

/-- All fields of a trace other than `exc_info` agree. -/
def SameButExcInfo (t u : Trace) : Prop :=
  u.name = t.name ∧ u.message = t.message ∧ u.details = t.details
    ∧ u.attachment = t.attachment ∧ u.level = t.level

/-- Embeds `types/types.py`, class `Node(Generic[TValue])`: a value and an
optional parent reference (the generated uuid is omitted; no claim
depends on it). -/
inductive PyNode (V : Type) where
  | mk (value : V) (parent : Option (PyNode V))

/-- Embeds `Node.depth`: `self.parent.depth + 1 if self.parent else 1`. -/
def PyNode.depth {V : Type} : PyNode V → Nat
  | .mk _ none => 1
  | .mk _ (some p) => PyNode.depth p + 1

/-- Embeds `Node.__iter__`: the node followed by its parents up to the root. -/
def PyNode.chain {V : Type} : PyNode V → List (PyNode V)
  | .mk v none => [.mk v none]
  | .mk v (some p) => .mk v (some p) :: PyNode.chain p

/-- Embeds `scopes/activity.py`, class `ActivityScope`: only the parent link
matters for the depth claim; the other attributes are dropped. -/
inductive AScope where
  | mk (parent : Option AScope)

/-- Embeds `ActivityScope.depth`: `self.parent.depth + 1 if self.parent else 1`. -/
def AScope.depth : AScope → Nat
  | .mk none => 1
  | .mk (some p) => AScope.depth p + 1

/-- Embeds `ActivityScope.__iter__`: the scope followed by its parents. -/
def AScope.chain : AScope → List AScope
  | .mk none => [.mk none]
  | .mk (some p) => .mk (some p) :: AScope.chain p

/-- Modelled from the spec: the `Elapsed` stopwatch used by the tracing
`Activity` (`self.elapsed = Elapsed()`); its source file (the
`_reusable/elapsed.py` / `tools` module) is absent from `src/`, only its
importers are present. The spec contract: a monotonic stopwatch that
lazily starts on the first read; "`now()` returns seconds (float) since
the first call; first call returns `0.0` and records the epoch. No
reset operation." Time is passed explicitly as the current monotonic
clock sample (a rational stands in for the float). -/
structure Elapsed where
  epoch : Option ℚ

/-- Modelled from the spec: a freshly created stopwatch has no epoch
(the clock has not started). -/
def Elapsed.init : Elapsed := ⟨none⟩

/-- Modelled from the spec: reading the stopwatch at monotonic time `t`
returns 0 and records `t` as the epoch on the first read, and the time
since the recorded epoch afterwards. -/
def Elapsed.read (t : ℚ) : Elapsed → ℚ × Elapsed
  | ⟨none⟩ => (0, ⟨some t⟩)
  | ⟨some e⟩ => (t - e, ⟨some e⟩)

/-- Embeds `loggers.py`, class `BasicLogger`: `__init__` runs
`self._start = timer()`, so the field holds the construction time. -/
structure BasicLoggerClock where
  start : ℚ

/-- Embeds `BasicLogger.__init__`'s clock part, called at construction
time `now`. -/
def BasicLoggerClock.create (now : ℚ) : BasicLoggerClock := ⟨now⟩

/-- Embeds `BasicLogger.elapsed`: `timer() - self._start`, reading the
monotonic timer at time `t`. -/
def BasicLoggerClock.elapsed (t : ℚ) (c : BasicLoggerClock) : ℚ :=
  t - c.start

/-- Embeds `tracing/activity.py`: the exceptions raised by the lifecycle
guards (`ActivityAlreadyStarted`, `ActivityStartMissing`,
`PreviousTraceNotLogged`). -/
inductive LifecycleErr where
  | activityAlreadyStarted
  | activityStartMissing
  | previousTraceNotLogged
deriving DecidableEq

/-- Which of the three trace factories (`start`, `other`, `final`) an
emitted record went through. -/
inductive TraceClass where
  | start
  | other
  | final
deriving DecidableEq, BEq

/-- A record handed to the logging collaborator: the trace contents
tagged with the factory class that emitted it. -/
structure Emitted where
  cls : TraceClass
  trace : Trace

/-- Embeds `tracing/activity.py`, class `Activity`: its mutable guard state —
`_started` (`ActivityStartLogged._value`), `_finalized`
(`OneTimeFalse.state`), `_tracing` (`PendingTrace.name`) — plus the
identity fields used in the start trace and the list of records the
activity has handed to the logger. -/
structure ActState where
  file : String
  line : Nat
  started : Bool
  finalized : Bool
  pending : Option String
  emitted : List Emitted

/-- Embeds `Activity.__init__`: all guards off, nothing pending or emitted. -/
def ActState.init (file : String) (line : Nat) : ActState :=
  { file := file, line := line, started := false, finalized := false,
    pending := none, emitted := [] }

/-- Embeds `PendingTrace.register`: raises `PreviousTraceNotLogged` when a
trace name is still pending, otherwise records the new name. -/
def ActState.register (name : String) (s : ActState) :
    ActState × Option LifecycleErr :=
  match s.pending with
  | some _ => (s, some .previousTraceNotLogged)
  | none => ({ s with pending := some name }, none)

/-- Embeds `Activity._log`: clears the pending guard (`self._tracing.clear()`)
and hands the record to the logging collaborator. -/
def ActState.emit (cls : TraceClass) (t : Trace) (s : ActState) : ActState :=
  { s with pending := none, emitted := s.emitted ++ [⟨cls, t⟩] }

/-- Embeds `Activity._log_start`: `self._started.yes_for(trace.name)` raises
`ActivityAlreadyStarted` when already started, otherwise sets the flag
and logs the trace extended with the `source` detail. -/
def ActState.log_start (t : Trace) (s : ActState) :
    ActState × Option LifecycleErr :=
  if s.started then (s, some .activityAlreadyStarted)
  else
    (ActState.emit .start
      (Trace.with_details
        [("source", Val.vdict [("file", Val.vstr s.file),
                               ("line", Val.vint s.line)])] t)
      { s with started := true }, none)

/-- Embeds `Activity._log_other`: `self._started.require_for(trace.name)`
raises `ActivityStartMissing` when not started, otherwise logs. -/
def ActState.log_other (t : Trace) (s : ActState) :
    ActState × Option LifecycleErr :=
  if s.started then (ActState.emit .other t s, none)
  else (s, some .activityStartMissing)

/-- Embeds `Activity._log_final`: reading `self._finalized` (a `OneTimeFalse`)
returns the stored flag and then sets it to `True`; when it was already
`True` the call returns silently, otherwise the start guard is checked
and the trace logged. -/
def ActState.log_final (t : Trace) (s : ActState) :
    ActState × Option LifecycleErr :=
  if s.finalized then (s, none)
  else
    let s1 := { s with finalized := true }
    if s1.started then (ActState.emit .final t s1, none)
    else (s1, some .activityStartMissing)

/-- One user-level trace statement `activity.<group>.trace_*(...).log()`:
which factory group it goes through and the built trace. -/
inductive Op where
  | start (t : Trace)
  | other (t : Trace)
  | final (t : Trace)

/-- Embeds `Activity._trace`'s factory followed by `Trace.log`: registers the
trace name with the pending guard, then (unless registration raised)
runs the group's log function. A raised guard error leaves the state as
the exception propagates to the caller. -/
def ActState.doTrace
    (log : Trace → ActState → ActState × Option LifecycleErr)
    (t : Trace) (s : ActState) : ActState :=
  match ActState.register t.name s with
  | (s1, some _) => s1
  | (s1, none) => (log t s1).1

/-- One step of activity usage. -/
def ActState.step (op : Op) (s : ActState) : ActState :=
  match op with
  | .start t => ActState.doTrace ActState.log_start t s
  | .other t => ActState.doTrace ActState.log_other t s
  | .final t => ActState.doTrace ActState.log_final t s

/-- A sequence of trace statements against one activity. -/
def ActState.run (ops : List Op) (s : ActState) : ActState :=
  match ops with
  | [] => s
  | op :: rest => ActState.run rest (ActState.step op s)

/-- How many of the emitted records went through the `final` group. -/
def finalCount (rs : List Emitted) : Nat :=
  (rs.filter (fun r => r.cls == TraceClass.final)).length

/-- The finalized flag and the emitted records stay consistent: no
final-class record before the flag trips, and never more than one. -/
def FinalInv (s : ActState) : Prop :=
  finalCount s.emitted ≤ 1
    ∧ (s.finalized = false → finalCount s.emitted = 0)

/-- An exception observable at a scope boundary: one of the three
lifecycle-protocol errors or an application exception with its type
name and message (`str(exc_val)`). -/
inductive Exc where
  | activityStartMissing
  | activityAlreadyStarted
  | previousTraceNotLogged
  | app (ename : String) (emsg : String)
deriving DecidableEq

/-- The exception object a raised guard error turns into. -/
def Exc.ofErr : LifecycleErr → Exc
  | .activityAlreadyStarted => .activityAlreadyStarted
  | .activityStartMissing => .activityStartMissing
  | .previousTraceNotLogged => .previousTraceNotLogged

/-- Embeds `Activity.__exit__`'s `isinstance(exc_val, (ActivityStartMissing,
ActivityAlreadyStarted, PreviousTraceNotLogged))` test. -/
def Exc.isProtocol : Exc → Bool
  | .app _ _ => false
  | _ => true

/-- Embeds `Activity.__exit__`'s error-trace message:
`f"Unhandled <{exc_type.__name__}> has occurred: <{str(exc_val) or 'N/A'}>"`. -/
def errorMessage (ename emsg : String) : String :=
  "Unhandled <" ++ ename ++ "> has occurred: <"
    ++ (if emsg = "" then "N/A" else emsg) ++ ">"

/-- The trace built by
`self.final.trace_error(message)`: a trace named `error` with the
message, error level, and `exc_info=True`
(`self._trace().with_message(message).as_error().with_exc_info(True)`). -/
def errorTrace (ename emsg : String) : Trace :=
  Trace.with_exc_info true
    (Trace.as_error
      (Trace.with_message (some (errorMessage ename emsg))
        (Trace.mk0 "error")))

/-- Result of `Activity.__enter__`: the new current-activity slot, the
token capturing the previous slot value, the activity state after the
optional auto-begin, and the guard error the auto-begin raised, if
any. -/
structure EnterResult where
  slot : Option (PyNode Nat)
  token : Option (PyNode Nat)
  act : ActState
  raised : Option LifecycleErr

/-- Embeds `Activity.__enter__`: reads the current slot as the parent, sets
the slot to `Node(self, parent)` keeping the reset token, and when
`auto_begin` is set runs
`self.start.trace_begin().action(self._on_begin).log()`. -/
def enterScope (aid : Nat) (autoBegin : Bool) (onBegin : Trace → Trace)
    (act : ActState) (slot : Option (PyNode Nat)) : EnterResult :=
  let slot1 := some (PyNode.mk aid slot)
  if autoBegin then
    match ActState.register "begin" act with
    | (a1, some e) => ⟨slot1, slot, a1, some e⟩
    | (a1, none) =>
        let r := ActState.log_start (onBegin (Trace.as_info (Trace.mk0 "begin"))) a1
        ⟨slot1, slot, r.1, r.2⟩
  else ⟨slot1, slot, act, none⟩

/-- Result of `Activity.__exit__`: the current-activity slot after the
exit, the activity state, the exception that propagates to the caller
(if any), and whether the `on_error` hook ran. -/
structure ExitResult where
  slot : Option (PyNode Nat)
  act : ActState
  raised : Option Exc
  hookCalled : Bool

/-- Embeds `Activity.__exit__`: with no exception it only resets the slot to
the token; a lifecycle-protocol exception is passed through untouched
(and the slot reset); any other exception runs the `on_error` hook and
then `self.final.trace_error(...).log()` — when that trace's
registration or final-logging itself raises a guard error, the guard
error propagates and the `current_activity.reset(self._token)` line is
never reached, leaving the slot as it was; otherwise the slot is reset
and `__exit__` returns `False`, re-raising the original exception. -/
def exitScope (onError : ActState → ActState) (exc : Option Exc)
    (token slot : Option (PyNode Nat)) (act : ActState) : ExitResult :=
  match exc with
  | none => ⟨token, act, none, false⟩
  | some (.app en em) =>
      let a1 := onError act
      match ActState.register "error" a1 with
      | (a2, some e) => ⟨slot, a2, some (Exc.ofErr e), true⟩
      | (a2, none) =>
          match ActState.log_final (errorTrace en em) a2 with
          | (a3, some e) => ⟨slot, a3, some (Exc.ofErr e), true⟩
          | (a3, none) => ⟨token, a3, some (.app en em), true⟩
  | some e => ⟨token, act, some e, false⟩

/-- Embeds `telemetry.py`, `telemetry_context`: saves the token, sets the slot
to `Node(logger, parent)`, runs the body (which may itself mutate the
slot and finish normally or with an exception), and restores the token
in a `finally`. The `except` branches only log; whatever they do, the
`finally` runs, so the body's outcome is passed through and the slot
restore is unconditional. -/
def telemetryContext (lid : Nat) (slot : Option (PyNode Nat))
    (body : Option (PyNode Nat) → Option (PyNode Nat) × Option Exc) :
    Option (PyNode Nat) × Option Exc :=
  let token := slot
  let r := body (some (PyNode.mk lid slot))
  (token, r.2)

/-- Embeds `filters/format_args.py`: the per-argument formatting
specification found in the `args_format` dict — `None`, a format
string, a formatter callable, or any other (truthy) value, which is
invalid. -/
inductive ArgFormat where
  | fnone
  | fstr (s : String)
  | fcall (f : Val → String)
  | finvalid

/-- The errors the two filters raise: `ArgNotFound` and
`InvalidArgFormat` from `format_args.py`, `ValueError` from
`format_result.py`. -/
inductive FmtErr where
  | argNotFound
  | invalidArgFormat
  | invalidResultFormat
deriving DecidableEq

/-- Embeds `arg_format = arg_format or ""`: a falsy `None` becomes the default
format string. -/
def ArgFormat.norm : ArgFormat → ArgFormat
  | .fnone => .fstr ""
  | f => f

/-- The body of `FormatArgs.filter`'s loop for one named argument,
parameterised by the builtin `format` (`fmt v spec`): a name absent
from the captured args raises `ArgNotFound` (the `KeyError` branch); a
`None` value skips the `while arg is not None` loop, formatting
nothing; a format string or callable produces the formatted value; any
other spec raises `InvalidArgFormat`. -/
def formatOneArg (fmt : Val → String → String)
    (argsNative : List (String × Val)) (argName : String)
    (argFormat : ArgFormat) : Except FmtErr (Option String) :=
  match dictLookup argName argsNative with
  | none => .error .argNotFound
  | some .vnone => .ok none
  | some v =>
      match argFormat.norm with
      | .fstr s => .ok (some (fmt v s))
      | .fcall f => .ok (some (f v))
      | _ => .error .invalidArgFormat

/-- Embeds `FormatArgs.filter`'s loop over the whole `args_format` dict,
collecting the `args_formatted` entries. -/
def formatArgs (fmt : Val → String → String)
    (argsNative : List (String × Val)) :
    List (String × ArgFormat) → Except FmtErr (List (String × String))
  | [] => .ok []
  | (n, af) :: rest =>
      match formatOneArg fmt argsNative n af with
      | .error e => .error e
      | .ok none => formatArgs fmt argsNative rest
      | .ok (some s) =>
          match formatArgs fmt argsNative rest with
          | .error e => .error e
          | .ok tail => .ok ((n, s) :: tail)

/-- Embeds `include_args=True` means every captured argument with the default
format; `False` means none (`{k: "" for k in args_native} if args_format
else {}`). -/
def resolveArgsFormat (b : Bool) (argsNative : List (String × Val)) :
    List (String × ArgFormat) :=
  if b then argsNative.map (fun kv => (kv.1, ArgFormat.fstr ""))
  else []

/-- Embeds `filters/format_result.py`: the result formatting specification —
`None`, a bool, a format string, a callable, or any other value, which
is invalid. -/
inductive ResultFormat where
  | rnone
  | rbool (b : Bool)
  | rstr (s : String)
  | rcall (f : Val → String)
  | rinvalid

/-- Embeds `FormatResult.filter`'s loop: a `None` result skips the
`while result_native is not None` loop leaving `result_formatted`
empty; `result_format=False` breaks out, also leaving it empty; `True`
and `None` become the default format string; a format string or
callable produces the formatted result; any other spec raises
`ValueError`. -/
def formatResult (fmt : Val → String → String) (resultNative : Val)
    (resultFormat : ResultFormat) : Except FmtErr String :=
  match resultNative with
  | .vnone => .ok ""
  | v =>
      match resultFormat with
      | .rbool false => .ok ""
      | .rbool true => .ok (fmt v "")
      | .rnone => .ok (fmt v "")
      | .rstr s => .ok (fmt v s)
      | .rcall f => .ok (f v)
      | .rinvalid => .error .invalidResultFormat

/-- Embeds `counter.py`, class `Item`: an optional item id and its elapsed
time (defaults `None` and `0`). -/
structure Item where
  itemId : Option String := none
  elapsed : ℚ := 0
deriving DecidableEq

/-- Embeds `counter.py`, class `Counter`: the recorded items (`measure`
appends one per measured block). -/
structure Counter where
  items : List Item

/-- Embeds `Counter.count`: `len(self.items)`. -/
def Counter.count (c : Counter) : Nat := c.items.length

/-- Embeds `Counter.elapsed`: `sum(item.elapsed for item in self.items)`. -/
def Counter.elapsedTotal (c : Counter) : ℚ :=
  (c.items.map Item.elapsed).sum

/-- Embeds `Counter.avg`: `self.elapsed() / self.count if self.items else 0`. -/
def Counter.avg (c : Counter) : ℚ :=
  if c.items = [] then 0 else c.elapsedTotal / c.count

/-- Embeds `Counter.items_per_second`:
`self.count / self.elapsed() if self.items else 0`. (Lean's division
by zero returns 0 where Python would raise `ZeroDivisionError` for a
non-empty counter whose total elapsed is 0; the claims below only rely
on the empty case and on `avg`, whose divisor is the non-zero count.) -/
def Counter.itemsPerSecond (c : Counter) : ℚ :=
  if c.items = [] then 0 else (c.count : ℚ) / c.elapsedTotal

/-- Python's `min(items, key=...)`: the first item with the least
elapsed time. -/
def Counter.minBody (first : Item) (rest : List Item) : Item :=
  rest.foldl (fun best it => if it.elapsed < best.elapsed then it else best)
    first

/-- Embeds `Counter.min`: the least item, or a default `Item()` when empty. -/
def Counter.minItem (c : Counter) : Item :=
  match c.items with
  | [] => {}
  | first :: rest => Counter.minBody first rest

/-- Python's `max(items, key=...)`: the first item with the greatest
elapsed time. -/
def Counter.maxBody (first : Item) (rest : List Item) : Item :=
  rest.foldl (fun best it => if best.elapsed < it.elapsed then it else best)
    first

/-- Embeds `Counter.max`: the greatest item, or a default `Item()` when
empty. -/
def Counter.maxItem (c : Counter) : Item :=
  match c.items with
  | [] => {}
  | first :: rest => Counter.maxBody first rest

theorem dictLookup_map_key (k : String) (h : String → Val → Val) :
    ∀ a : List (String × Val),
      dictLookup k (a.map (fun kv => (kv.1, h kv.1 kv.2)))
        = (dictLookup k a).map (h k) := by
  intro a
  induction a with
  | nil => rfl
  | cons kv rest ih =>
      by_cases hk : kv.1 = k
      · subst hk
        simp [dictLookup]
      · simp [dictLookup, hk, ih]

theorem dictLookup_append (k : String) (xs ys : List (String × Val)) :
    dictLookup k (xs ++ ys)
      = match dictLookup k xs with
        | some v => some v
        | none => dictLookup k ys := by
  induction xs with
  | nil => rfl
  | cons kv rest ih =>
      by_cases hk : kv.1 = k
      · simp [dictLookup, hk]
      · simp [dictLookup, hk, ih]

theorem dictLookup_filter_key (k : String) (p : String → Bool)
    (b : List (String × Val)) :
    dictLookup k (b.filter (fun kv => p kv.1))
      = if p k then dictLookup k b else none := by
  induction b with
  | nil => simp [dictLookup]
  | cons kv rest ih =>
      by_cases hk : kv.1 = k
      · subst hk
        by_cases hp : p kv.1
        · simp [dictLookup, hp, List.filter]
        · simp [dictLookup, List.filter, hp, ih]
      · by_cases hp : p kv.1
        · simp [dictLookup, List.filter, hp, hk, ih]
        · simp [dictLookup, List.filter, hp, hk, ih]

theorem dictLookup_pyDictUnion_right (a b : List (String × Val))
    (k : String) (v : Val) (hb : dictLookup k b = some v) :
    dictLookup k (pyDictUnion a b) = some v := by
  unfold pyDictUnion
  rw [dictLookup_append]
  rw [dictLookup_map_key k (fun key old => (dictLookup key b).getD old) a]
  cases ha : dictLookup k a with
  | some w => simp [ha, hb]
  | none =>
      rw [dictLookup_filter_key k (fun key => (dictLookup key a).isNone) b]
      simp [ha, hb]

theorem dictLookup_pyDictUnion_left (a b : List (String × Val))
    (k : String) (hb : dictLookup k b = none) :
    dictLookup k (pyDictUnion a b) = dictLookup k a := by
  unfold pyDictUnion
  rw [dictLookup_append]
  rw [dictLookup_map_key k (fun key old => (dictLookup key b).getD old) a]
  cases ha : dictLookup k a with
  | some w => simp [ha, hb]
  | none =>
      rw [dictLookup_filter_key k (fun key => (dictLookup key a).isNone) b]
      simp [ha, hb]

/-- C10: every `Trace` builder method returns the trace with only its
own field modified and all other fields unchanged, and `with_details`
is a right-biased dictionary union: a key bound by the new kwargs takes
the new value, and previously accumulated keys that are not overridden
keep their old value. -/
theorem trace_builder_frame_and_union :
    (∀ t v, SameButMessage t (Trace.with_message v t)
      ∧ (Trace.with_message v t).message = v)
    ∧ (∀ t kw, SameButDetails t (Trace.with_details kw t)
      ∧ (Trace.with_details kw t).details = pyDictUnion t.details kw)
    ∧ (∀ t v, SameButAttachment t (Trace.with_attachment v t)
      ∧ (Trace.with_attachment v t).attachment = some v)
    ∧ (∀ t v, SameButExcInfo t (Trace.with_exc_info v t)
      ∧ (Trace.with_exc_info v t).excInfo = some v)
    ∧ (∀ t v, SameButLevel t (Trace.with_level v t)
      ∧ (Trace.with_level v t).level = v)
    ∧ (∀ t, SameButLevel t (Trace.as_debug t)
      ∧ (Trace.as_debug t).level = levelDEBUG)
    ∧ (∀ t, SameButLevel t (Trace.as_info t)
      ∧ (Trace.as_info t).level = levelINFO)
    ∧ (∀ t, SameButLevel t (Trace.as_warning t)
      ∧ (Trace.as_warning t).level = levelWARNING)
    ∧ (∀ t, SameButLevel t (Trace.as_error t)
      ∧ (Trace.as_error t).level = levelERROR)
    ∧ (∀ t kw k v, dictLookup k kw = some v
      → dictLookup k (Trace.with_details kw t).details = some v)
    ∧ (∀ t kw k, dictLookup k kw = none
      → dictLookup k (Trace.with_details kw t).details
          = dictLookup k t.details) := by
  refine ⟨?_, ?_, ?_, ?_, ?_, ?_, ?_, ?_, ?_, ?_, ?_⟩
  · exact fun t v => ⟨⟨rfl, rfl, rfl, rfl, rfl⟩, rfl⟩
  · exact fun t kw => ⟨⟨rfl, rfl, rfl, rfl, rfl⟩, rfl⟩
  · exact fun t v => ⟨⟨rfl, rfl, rfl, rfl, rfl⟩, rfl⟩
  · exact fun t v => ⟨⟨rfl, rfl, rfl, rfl, rfl⟩, rfl⟩
  · exact fun t v => ⟨⟨rfl, rfl, rfl, rfl, rfl⟩, rfl⟩
  · exact fun t => ⟨⟨rfl, rfl, rfl, rfl, rfl⟩, rfl⟩
  · exact fun t => ⟨⟨rfl, rfl, rfl, rfl, rfl⟩, rfl⟩
  · exact fun t => ⟨⟨rfl, rfl, rfl, rfl, rfl⟩, rfl⟩
  · exact fun t => ⟨⟨rfl, rfl, rfl, rfl, rfl⟩, rfl⟩
  · exact fun t kw k v h => dictLookup_pyDictUnion_right t.details kw k v h
  · exact fun t kw k h => dictLookup_pyDictUnion_left t.details kw k h

/-- Witness for C10: the union facts applied to a concrete trace whose
details hold `a` and `b`, updated with kwargs overriding `b` and adding
`c`: `b` takes the new value, `a` survives. -/
theorem trace_builder_frame_and_union_witness :
    dictLookup "b"
        (Trace.with_details [("b", Val.vint 2), ("c", Val.vint 3)]
          { Trace.mk0 "info" with
              details := [("a", Val.vint 0), ("b", Val.vint 1)] }).details
      = some (Val.vint 2)
    ∧ dictLookup "a"
        (Trace.with_details [("b", Val.vint 2), ("c", Val.vint 3)]
          { Trace.mk0 "info" with
              details := [("a", Val.vint 0), ("b", Val.vint 1)] }).details
      = dictLookup "a" [("a", Val.vint 0), ("b", Val.vint 1)] := by
  constructor
  · exact trace_builder_frame_and_union.2.2.2.2.2.2.2.2.2.1
      { Trace.mk0 "info" with
          details := [("a", Val.vint 0), ("b", Val.vint 1)] }
      [("b", Val.vint 2), ("c", Val.vint 3)] "b" (Val.vint 2) rfl
  · exact trace_builder_frame_and_union.2.2.2.2.2.2.2.2.2.2
      { Trace.mk0 "info" with
          details := [("a", Val.vint 0), ("b", Val.vint 1)] }
      [("b", Val.vint 2), ("c", Val.vint 3)] "a" rfl

theorem pyNode_depth_eq_chain_length {V : Type} :
    (n : PyNode V) → n.depth = n.chain.length
  | .mk _ none => rfl
  | .mk v (some p) => by
      simp [PyNode.depth, PyNode.chain, pyNode_depth_eq_chain_length p]

theorem aScope_depth_eq_chain_length :
    (s : AScope) → s.depth = s.chain.length
  | .mk none => rfl
  | .mk (some p) => by
      simp [AScope.depth, AScope.chain, aScope_depth_eq_chain_length p]

/-- C6: the depth of a root node (no parent) is 1, the depth of a
child is its parent's depth plus 1, and depth equals the length of the
parent chain from the node to the root — for both `Node` from
`types/types.py` and `ActivityScope` from `scopes/activity.py`. -/
theorem node_depth_characterisation :
    (∀ (V : Type) (v : V), (PyNode.mk v none).depth = 1)
    ∧ (∀ (V : Type) (v : V) (p : PyNode V),
        (PyNode.mk v (some p)).depth = p.depth + 1)
    ∧ (∀ (V : Type) (n : PyNode V), n.depth = n.chain.length)
    ∧ (AScope.mk none).depth = 1
    ∧ (∀ p : AScope, (AScope.mk (some p)).depth = p.depth + 1)
    ∧ (∀ s : AScope, s.depth = s.chain.length) := by
  refine ⟨fun V v => rfl, fun V v p => rfl, ?_, rfl, fun p => rfl, ?_⟩
  · exact fun V n => pyNode_depth_eq_chain_length n
  · exact fun s => aScope_depth_eq_chain_length s

/-- Counterexample for C7 as stated: `BasicLogger` (loggers.py, the
cited lines) starts its clock eagerly at construction, not lazily at
the first read: a logger constructed at monotonic time 0 whose elapsed
property is first read at time 1 returns 1, not 0. -/
theorem basicLogger_first_read_not_zero :
    BasicLoggerClock.elapsed 1 (BasicLoggerClock.create 0) = 1
      ∧ BasicLoggerClock.elapsed 1 (BasicLoggerClock.create 0) ≠ 0 := by
  constructor
  · norm_num [BasicLoggerClock.elapsed, BasicLoggerClock.create]
  · norm_num [BasicLoggerClock.elapsed, BasicLoggerClock.create]

/-- C7 (amended): for the tracing `Activity`'s `Elapsed` stopwatch
(spec contract, source absent from `src/`), the first read returns 0
and records the read time as the epoch, later reads leave the epoch
unchanged, and the value is non-negative and non-decreasing for
monotone clock samples after the epoch; `BasicLogger`'s clock instead
starts at construction — its elapsed value is the time since
construction, likewise non-negative and non-decreasing. -/
theorem elapsed_clock_properties :
    (∀ t : ℚ, (Elapsed.read t Elapsed.init).1 = 0
      ∧ (Elapsed.read t Elapsed.init).2 = ⟨some t⟩)
    ∧ (∀ e t : ℚ, (Elapsed.read t ⟨some e⟩).2 = ⟨some e⟩)
    ∧ (∀ e t : ℚ, e ≤ t → 0 ≤ (Elapsed.read t ⟨some e⟩).1)
    ∧ (∀ e t₁ t₂ : ℚ, t₁ ≤ t₂
        → (Elapsed.read t₁ ⟨some e⟩).1 ≤ (Elapsed.read t₂ ⟨some e⟩).1)
    ∧ (∀ c t : ℚ, BasicLoggerClock.elapsed t (BasicLoggerClock.create c)
        = t - c)
    ∧ (∀ c t : ℚ, c ≤ t
        → 0 ≤ BasicLoggerClock.elapsed t (BasicLoggerClock.create c))
    ∧ (∀ c t₁ t₂ : ℚ, t₁ ≤ t₂
        → BasicLoggerClock.elapsed t₁ (BasicLoggerClock.create c)
          ≤ BasicLoggerClock.elapsed t₂ (BasicLoggerClock.create c)) := by
  refine ⟨fun t => ⟨rfl, rfl⟩, fun e t => rfl, ?_, ?_, fun c t => rfl, ?_, ?_⟩
  · intro e t h
    simpa [Elapsed.read] using h
  · intro e t₁ t₂ h
    simpa [Elapsed.read] using h
  · intro c t h
    simpa [BasicLoggerClock.elapsed, BasicLoggerClock.create] using h
  · intro c t₁ t₂ h
    simpa [BasicLoggerClock.elapsed, BasicLoggerClock.create] using h

/-- Witness for C7 (amended): the stopwatch read at times 3 then 5
after an epoch of 3 gives non-negative, non-decreasing values. -/
theorem elapsed_clock_properties_witness :
    0 ≤ (Elapsed.read 3 ⟨some 3⟩).1
    ∧ (Elapsed.read 3 ⟨some 3⟩).1 ≤ (Elapsed.read 5 ⟨some 3⟩).1
    ∧ 0 ≤ BasicLoggerClock.elapsed 4 (BasicLoggerClock.create 2) := by
  refine ⟨?_, ?_, ?_⟩
  · exact elapsed_clock_properties.2.2.1 3 3 (by norm_num)
  · exact elapsed_clock_properties.2.2.2.1 3 3 5 (by norm_num)
  · exact elapsed_clock_properties.2.2.2.2.2.1 2 4 (by norm_num)

theorem finalCount_append (xs ys : List Emitted) :
    finalCount (xs ++ ys) = finalCount xs + finalCount ys := by
  simp [finalCount, List.filter_append]

theorem finalCount_single_start (t : Trace) :
    finalCount [⟨TraceClass.start, t⟩] = 0 := rfl

theorem finalCount_single_other (t : Trace) :
    finalCount [⟨TraceClass.other, t⟩] = 0 := rfl

theorem finalCount_single_final (t : Trace) :
    finalCount [⟨TraceClass.final, t⟩] = 1 := rfl

theorem step_preserves_finalInv (op : Op) (s : ActState)
    (h : FinalInv s) : FinalInv (ActState.step op s) := by
  obtain ⟨file, line, started, finalized, pending, emitted⟩ := s
  simp only [FinalInv] at h ⊢
  obtain ⟨h1, h2⟩ := h
  cases op <;> cases started <;> cases finalized <;> cases pending <;>
    simp_all [ActState.step, ActState.doTrace, ActState.register,
      ActState.log_start, ActState.log_other, ActState.log_final,
      ActState.emit, finalCount_append, finalCount_single_start,
      finalCount_single_other, finalCount_single_final]

theorem run_preserves_finalInv (ops : List Op) (s : ActState)
    (h : FinalInv s) : FinalInv (ActState.run ops s) := by
  induction ops generalizing s with
  | nil => simpa [ActState.run] using h
  | cons op rest ih =>
      exact ih (ActState.step op s) (step_preserves_finalInv op s h)

/-- C2 (amended): a start-class log on an already-started activity
raises `ActivityAlreadyStarted`; an other-class log before the start
trace raises `ActivityStartMissing`; a final-class log before the start
trace raises `ActivityStartMissing` provided the one-time finalized
flag has not yet tripped (any earlier final-class log attempt trips it,
after which final-class `log()` calls return silently); in every
raising case the state equations show no record is emitted for the
offending trace. -/
theorem lifecycle_guard_errors :
    (∀ t s, s.started = true
      → ActState.log_start t s = (s, some LifecycleErr.activityAlreadyStarted))
    ∧ (∀ t s, s.started = false
      → ActState.log_other t s = (s, some LifecycleErr.activityStartMissing))
    ∧ (∀ t s, s.started = false → s.finalized = false
      → ActState.log_final t s
          = ({ s with finalized := true },
              some LifecycleErr.activityStartMissing)) := by
  refine ⟨?_, ?_, ?_⟩
  · intro t s h
    simp [ActState.log_start, h]
  · intro t s h
    simp [ActState.log_other, h]
  · intro t s h hf
    simp [ActState.log_final, h, hf]

/-- Witness for C2 (amended): on a fresh activity, an other-class log
raises `ActivityStartMissing`, and after the start trace a second
start-class log raises `ActivityAlreadyStarted`. -/
theorem lifecycle_guard_errors_witness :
    ActState.log_other (Trace.mk0 "info") (ActState.init "t.py" 1)
      = (ActState.init "t.py" 1, some LifecycleErr.activityStartMissing)
    ∧ ActState.log_start (Trace.mk0 "begin")
        { ActState.init "t.py" 1 with started := true }
      = ({ ActState.init "t.py" 1 with started := true },
          some LifecycleErr.activityAlreadyStarted)
    ∧ ActState.log_final (Trace.mk0 "end") (ActState.init "t.py" 1)
      = ({ ActState.init "t.py" 1 with finalized := true },
          some LifecycleErr.activityStartMissing) := by
  refine ⟨?_, ?_, ?_⟩
  · exact lifecycle_guard_errors.2.1 (Trace.mk0 "info")
      (ActState.init "t.py" 1) rfl
  · exact lifecycle_guard_errors.1 (Trace.mk0 "begin")
      { ActState.init "t.py" 1 with started := true } rfl
  · exact lifecycle_guard_errors.2.2 (Trace.mk0 "end")
      (ActState.init "t.py" 1) rfl rfl

/-- Counterexample for C2 as stated: after a first final-class log on a
never-started activity (which raises `ActivityStartMissing` but trips
the one-time finalized flag), a second final-class `log()` on the same
still-unstarted activity raises nothing at all — the claim says any
final-class trace logged before a start-class trace raises
`ActivityStartMissing`. -/
theorem lifecycle_guard_counterexample :
    ((ActState.log_final (Trace.mk0 "end") (ActState.init "t.py" 1)).1.started
      = false)
    ∧ (ActState.log_final (Trace.mk0 "end")
        (ActState.log_final (Trace.mk0 "end") (ActState.init "t.py" 1)).1).2
      = none
    ∧ (ActState.log_final (Trace.mk0 "end")
        (ActState.log_final (Trace.mk0 "end") (ActState.init "t.py" 1)).1).1.emitted
      = [] := by
  exact ⟨rfl, rfl, rfl⟩

/-- C3: at most one final-class record is ever emitted by an activity —
over every sequence of trace statements from a fresh activity the
emitted records contain at most one final-class record; the first
final-class log on a started, not-yet-finalized activity emits exactly
one record and flips the activity to finalized; and once finalized,
a final-class `log()` leaves the state untouched, emitting nothing and
raising nothing. -/
theorem final_trace_at_most_once :
    (∀ ops file line,
      finalCount ((ActState.run ops (ActState.init file line)).emitted) ≤ 1)
    ∧ (∀ t s, s.started = true → s.finalized = false
      → ActState.log_final t s
          = (ActState.emit TraceClass.final t { s with finalized := true },
              none))
    ∧ (∀ t s, s.finalized = true → ActState.log_final t s = (s, none)) := by
  refine ⟨?_, ?_, ?_⟩
  · intro ops file line
    exact (run_preserves_finalInv ops (ActState.init file line)
      ⟨by simp [ActState.init, finalCount], fun _ => by
        simp [ActState.init, finalCount]⟩).1
  · intro t s hs hf
    simp [ActState.log_final, hs, hf]
  · intro t s hf
    simp [ActState.log_final, hf]

/-- Witness for C3: a concrete run — begin, end, and two extra final
attempts — emits exactly one final-class record; and the silent-repeat
fact applied to the state right after that run. -/
theorem final_trace_at_most_once_witness :
    finalCount ((ActState.run
        [Op.start (Trace.mk0 "begin"), Op.final (Trace.mk0 "end"),
         Op.final (Trace.mk0 "end"), Op.final (Trace.mk0 "noop")]
        (ActState.init "t.py" 1)).emitted) ≤ 1
    ∧ ActState.log_final (Trace.mk0 "end")
        { ActState.init "t.py" 1 with started := true, finalized := true }
      = ({ ActState.init "t.py" 1 with started := true, finalized := true },
          none)
    ∧ ActState.log_final (Trace.mk0 "end")
        { ActState.init "t.py" 1 with started := true }
      = (ActState.emit TraceClass.final (Trace.mk0 "end")
          { ActState.init "t.py" 1 with started := true, finalized := true },
          none) := by
  refine ⟨?_, ?_, ?_⟩
  · exact final_trace_at_most_once.1
      [Op.start (Trace.mk0 "begin"), Op.final (Trace.mk0 "end"),
       Op.final (Trace.mk0 "end"), Op.final (Trace.mk0 "noop")] "t.py" 1
  · exact final_trace_at_most_once.2.2 (Trace.mk0 "end")
      { ActState.init "t.py" 1 with started := true, finalized := true } rfl
  · exact final_trace_at_most_once.2.1 (Trace.mk0 "end")
      { ActState.init "t.py" 1 with started := true } rfl rfl

/-- C5: creating a trace builder registers its name with the pending
guard, which raises `PreviousTraceNotLogged` while a previously
registered trace has not been logged; a trace that is actually logged
(any of the three groups emitting) clears the guard, and registration
on a cleared guard succeeds. -/
theorem pending_trace_guard :
    (∀ n p s, s.pending = some p
      → ActState.register n s = (s, some LifecycleErr.previousTraceNotLogged))
    ∧ (∀ n s, s.pending = none
      → ActState.register n s = ({ s with pending := some n }, none))
    ∧ (∀ t s, s.started = false → (ActState.log_start t s).1.pending = none)
    ∧ (∀ t s, s.started = true → (ActState.log_other t s).1.pending = none)
    ∧ (∀ t s, s.started = true → s.finalized = false
      → (ActState.log_final t s).1.pending = none) := by
  refine ⟨?_, ?_, ?_, ?_, ?_⟩
  · intro n p s h
    simp [ActState.register, h]
  · intro n s h
    simp [ActState.register, h]
  · intro t s h
    simp [ActState.log_start, h, ActState.emit]
  · intro t s h
    simp [ActState.log_other, h, ActState.emit]
  · intro t s h hf
    simp [ActState.log_final, h, hf, ActState.emit]

/-- Witness for C5: registering while `info` is pending raises
`PreviousTraceNotLogged`; after a successful other-class log on a
started activity the guard is clear and the next registration
succeeds. -/
theorem pending_trace_guard_witness :
    ActState.register "item"
        { ActState.init "t.py" 1 with started := true, pending := some "info" }
      = ({ ActState.init "t.py" 1 with started := true, pending := some "info" },
          some LifecycleErr.previousTraceNotLogged)
    ∧ (ActState.log_other (Trace.mk0 "info")
        { ActState.init "t.py" 1 with started := true, pending := some "info" }).1.pending
      = none := by
  constructor
  · exact pending_trace_guard.1 "item" "info"
      { ActState.init "t.py" 1 with started := true, pending := some "info" }
      rfl
  · exact pending_trace_guard.2.2.2.1 (Trace.mk0 "info")
      { ActState.init "t.py" 1 with started := true, pending := some "info" }
      rfl

/-- C1 (amended): entering an activity scope sets the current-activity
slot to a node whose value is the new activity and whose parent is the
node that was current at entry (and keeps that previous value as the
reset token), whether or not auto-begin runs or raises. Exiting
restores the slot to exactly the token: always on normal return, always
when the pending exception is a lifecycle-protocol error, and — for an
application exception — provided `__exit__`'s own error-trace emission
does not raise a guard error (no pending unlogged trace and the
activity is started or already finalized); `telemetry_context` restores
unconditionally through its `finally`. When the error-trace emission
does raise, the reset line is never reached (see the counterexample). -/
theorem scope_enter_exit_restore :
    (∀ aid ab ob act slot,
      (enterScope aid ab ob act slot).slot = some (PyNode.mk aid slot)
      ∧ (enterScope aid ab ob act slot).token = slot)
    ∧ (∀ onError token slot act,
      (exitScope onError none token slot act).slot = token)
    ∧ (∀ onError e token slot act, Exc.isProtocol e = true
      → (exitScope onError (some e) token slot act).slot = token)
    ∧ (∀ en em token slot act, act.pending = none
      → (act.started = true ∨ act.finalized = true)
      → (exitScope id (some (Exc.app en em)) token slot act).slot = token)
    ∧ (∀ lid slot body, (telemetryContext lid slot body).1 = slot) := by
  refine ⟨?_, ?_, ?_, ?_, ?_⟩
  · intro aid ab ob act slot
    cases ab with
    | false => exact ⟨rfl, rfl⟩
    | true =>
        cases hp : act.pending with
        | some p => simp [enterScope, ActState.register, hp]
        | none => simp [enterScope, ActState.register, hp]
  · intro onError token slot act
    rfl
  · intro onError e token slot act h
    cases e with
    | app en em => simp [Exc.isProtocol] at h
    | activityStartMissing => rfl
    | activityAlreadyStarted => rfl
    | previousTraceNotLogged => rfl
  · intro en em token slot act hp hsf
    obtain ⟨file, line, started, finalized, pending, emitted⟩ := act
    simp only at hp
    subst hp
    cases hf : finalized with
    | true => simp [exitScope, ActState.register, ActState.log_final]
    | false =>
        cases hs : started with
        | true =>
            simp [exitScope, ActState.register, ActState.log_final,
              ActState.emit]
        | false =>
            subst hf
            subst hs
            rcases hsf with h | h <;> simp at h
  · intro lid slot body
    rfl

/-- Witness for C1 (amended): entering over an empty slot yields a root
node and exiting with no exception on a fresh activity restores the
empty slot; an application exception on a started activity with no
pending trace also restores. -/
theorem scope_enter_exit_restore_witness :
    (enterScope 1 true id (ActState.init "t.py" 1) none).slot
      = some (PyNode.mk 1 none)
    ∧ (exitScope id none none (some (PyNode.mk 1 none))
        (ActState.init "t.py" 1)).slot = none
    ∧ (exitScope id (some (Exc.app "ValueError" "boom")) none
        (some (PyNode.mk 1 none))
        { ActState.init "t.py" 1 with started := true }).slot = none := by
  refine ⟨?_, ?_, ?_⟩
  · exact (scope_enter_exit_restore.1 1 true id (ActState.init "t.py" 1)
      none).1
  · exact scope_enter_exit_restore.2.1 id none (some (PyNode.mk 1 none))
      (ActState.init "t.py" 1)
  · exact scope_enter_exit_restore.2.2.2.1 "ValueError" "boom" none
      (some (PyNode.mk 1 none))
      { ActState.init "t.py" 1 with started := true } rfl (Or.inl rfl)

/-- Counterexample for C1 as stated: a scope on a never-started
activity (auto-begin disabled, no start trace logged) that exits with
an application exception does not restore the slot — `__exit__`'s own
error trace hits `ActivityStartMissing`, which propagates before the
`current_activity.reset` line runs, so the slot keeps the entered node
instead of the pre-entry value `none`. -/
theorem scope_exit_context_leak :
    (exitScope id (some (Exc.app "ValueError" "boom")) none
        (some (PyNode.mk 1 none)) (ActState.init "t.py" 1)).slot
      = some (PyNode.mk 1 none)
    ∧ (exitScope id (some (Exc.app "ValueError" "boom")) none
        (some (PyNode.mk 1 none)) (ActState.init "t.py" 1)).slot ≠ none
    ∧ (exitScope id (some (Exc.app "ValueError" "boom")) none
        (some (PyNode.mk 1 none)) (ActState.init "t.py" 1)).raised
      = some Exc.activityStartMissing := by
  refine ⟨rfl, fun h => Option.noConfusion h, rfl⟩

/-- C4 (amended): on scope exit with a pending lifecycle-protocol
exception, `__exit__` passes it through unchanged — no `on_error` hook,
no error trace, state untouched, slot restored. With any other pending
exception, provided the activity is started, not yet finalized, and has
no pending unlogged trace, and the hook is the default no-op: the hook
runs, exactly one final-class record is emitted — the `error` trace at
error level with `exc_info=True` carrying the exception's type name and
message — the original exception propagates unchanged, and the slot is
restored. An already-finalized activity instead emits nothing (see the
counterexample). -/
theorem exit_exception_capture :
    (∀ onError e token slot act, Exc.isProtocol e = true
      → exitScope onError (some e) token slot act
          = ⟨token, act, some e, false⟩)
    ∧ (∀ en em token slot act, act.pending = none → act.started = true
      → act.finalized = false
      → exitScope id (some (Exc.app en em)) token slot act
          = ⟨token,
              { act with
                  finalized := true
                  emitted := act.emitted
                    ++ [⟨TraceClass.final, errorTrace en em⟩] },
              some (Exc.app en em), true⟩)
    ∧ (∀ en em, (errorTrace en em).name = "error"
      ∧ (errorTrace en em).level = levelERROR
      ∧ (errorTrace en em).excInfo = some true
      ∧ (errorTrace en em).message = some (errorMessage en em)) := by
  refine ⟨?_, ?_, ?_⟩
  · intro onError e token slot act h
    cases e with
    | app en em => simp [Exc.isProtocol] at h
    | activityStartMissing => rfl
    | activityAlreadyStarted => rfl
    | previousTraceNotLogged => rfl
  · intro en em token slot act hp hs hf
    obtain ⟨file, line, started, finalized, pending, emitted⟩ := act
    simp only at hp hs hf
    subst hp
    subst hs
    subst hf
    simp [exitScope, ActState.register, ActState.log_final, ActState.emit]
  · intro en em
    exact ⟨rfl, rfl, rfl, rfl⟩

/-- Witness for C4 (amended): a protocol error passes through a started
activity untouched, and a `ValueError` with message `boom` on a fresh
started activity yields exactly the `error` record and re-raises. -/
theorem exit_exception_capture_witness :
    exitScope id (some Exc.previousTraceNotLogged) none none
        { ActState.init "t.py" 1 with started := true }
      = ⟨none, { ActState.init "t.py" 1 with started := true },
          some Exc.previousTraceNotLogged, false⟩
    ∧ exitScope id (some (Exc.app "ValueError" "boom")) none none
        { ActState.init "t.py" 1 with started := true }
      = ⟨none,
          { ActState.init "t.py" 1 with
              started := true
              finalized := true
              emitted := [⟨TraceClass.final, errorTrace "ValueError" "boom"⟩] },
          some (Exc.app "ValueError" "boom"), true⟩ := by
  constructor
  · exact exit_exception_capture.1 id Exc.previousTraceNotLogged none none
      { ActState.init "t.py" 1 with started := true } rfl
  · exact exit_exception_capture.2.1 "ValueError" "boom" none none
      { ActState.init "t.py" 1 with started := true } rfl rfl rfl

/-- Counterexample for C4 as stated: when the user has already
finalized the activity inside the scope and then raises, the exception
propagates but no `error` trace is emitted at all — the final-class
emission is silently ignored, contradicting "exactly one error final
trace is emitted". -/
theorem exit_finalized_swallows_error_trace :
    (exitScope id (some (Exc.app "ValueError" "boom")) none none
        { ActState.init "t.py" 1 with
            started := true
            finalized := true
            emitted := [⟨TraceClass.final, Trace.mk0 "end"⟩] }).raised
      = some (Exc.app "ValueError" "boom")
    ∧ (exitScope id (some (Exc.app "ValueError" "boom")) none none
        { ActState.init "t.py" 1 with
            started := true
            finalized := true
            emitted := [⟨TraceClass.final, Trace.mk0 "end"⟩] }).act.emitted
      = [⟨TraceClass.final, Trace.mk0 "end"⟩] := by
  exact ⟨rfl, rfl⟩

/-- C8 (amended): the formatting filters fail fast when they process
the record: a named argument absent from the captured args raises
`ArgNotFound` (whatever its format spec); an invalid format spec raises
`InvalidArgFormat` for an argument and `ValueError` for the result —
provided the value being formatted is not `None`; a `None` argument
value or `None` result skips the `while ... is not None` loop, so the
field is dropped silently with no error even under an invalid spec
(the counterexample); valid specs (format string or callable) format
without error. The whole-dict filter propagates the first error. -/
theorem format_filters_fail_fast :
    (∀ fmt an n af, dictLookup n an = none
      → formatOneArg fmt an n af = .error FmtErr.argNotFound)
    ∧ (∀ fmt an n v, dictLookup n an = some v → v ≠ Val.vnone
      → formatOneArg fmt an n ArgFormat.finvalid
          = .error FmtErr.invalidArgFormat)
    ∧ (∀ fmt v, v ≠ Val.vnone
      → formatResult fmt v ResultFormat.rinvalid
          = .error FmtErr.invalidResultFormat)
    ∧ (∀ fmt an n af, dictLookup n an = some Val.vnone
      → formatOneArg fmt an n af = .ok none)
    ∧ (∀ fmt rf, formatResult fmt Val.vnone rf = .ok "")
    ∧ (∀ fmt an n af rest, dictLookup n an = none
      → formatArgs fmt an ((n, af) :: rest) = .error FmtErr.argNotFound) := by
  refine ⟨?_, ?_, ?_, ?_, ?_, ?_⟩
  · intro fmt an n af h
    simp [formatOneArg, h]
  · intro fmt an n v h hv
    cases v with
    | vnone => exact absurd rfl hv
    | vstr s => simp [formatOneArg, h, ArgFormat.norm]
    | vint m => simp [formatOneArg, h, ArgFormat.norm]
    | vbool b => simp [formatOneArg, h, ArgFormat.norm]
    | vdict d => simp [formatOneArg, h, ArgFormat.norm]
  · intro fmt v hv
    cases v with
    | vnone => exact absurd rfl hv
    | vstr s => rfl
    | vint m => rfl
    | vbool b => rfl
    | vdict d => rfl
  · intro fmt an n af h
    simp [formatOneArg, h]
  · intro fmt rf
    rfl
  · intro fmt an n af rest h
    simp [formatArgs, formatOneArg, h]

/-- Witness for C8 (amended): a missing argument raises `ArgNotFound`,
an invalid spec on a non-`None` value raises `InvalidArgFormat`, and an
invalid result spec on a non-`None` result raises `ValueError`. -/
theorem format_filters_fail_fast_witness :
    formatOneArg (fun _ _ => "") [("x", Val.vint 1)] "y" (ArgFormat.fstr "")
      = .error FmtErr.argNotFound
    ∧ formatOneArg (fun _ _ => "") [("x", Val.vint 1)] "x" ArgFormat.finvalid
      = .error FmtErr.invalidArgFormat
    ∧ formatResult (fun _ _ => "") (Val.vint 3) ResultFormat.rinvalid
      = .error FmtErr.invalidResultFormat
    ∧ formatArgs (fun _ _ => "") [("x", Val.vint 1)]
        [("y", ArgFormat.fstr "")] = .error FmtErr.argNotFound := by
  refine ⟨?_, ?_, ?_, ?_⟩
  · exact format_filters_fail_fast.1 (fun _ _ => "") [("x", Val.vint 1)]
      "y" (ArgFormat.fstr "") rfl
  · exact format_filters_fail_fast.2.1 (fun _ _ => "") [("x", Val.vint 1)]
      "x" (Val.vint 1) rfl (by intro h; cases h)
  · exact format_filters_fail_fast.2.2.1 (fun _ _ => "") (Val.vint 3)
      (by intro h; cases h)
  · exact format_filters_fail_fast.2.2.2.2.2 (fun _ _ => "")
      [("x", Val.vint 1)] "y" (ArgFormat.fstr "") [] rfl

/-- Counterexample for C8 as stated: an argument whose captured value
is `None` under an invalid (neither format-string nor callable) spec
raises nothing — the `while arg is not None` loop never runs, the field
is silently dropped, and the whole filter succeeds; the claim requires
an immediate error instead of a silent drop. -/
theorem format_args_silent_none_drop :
    formatOneArg (fun _ _ => "") [("x", Val.vnone)] "x" ArgFormat.finvalid
      = .ok none
    ∧ formatArgs (fun _ _ => "") [("x", Val.vnone)]
        [("x", ArgFormat.finvalid)] = .ok []
    ∧ formatResult (fun _ _ => "") Val.vnone ResultFormat.rinvalid
      = .ok "" := by
  exact ⟨rfl, rfl, rfl⟩

/-- C9: a `Counter` with no recorded items returns 0 from `avg` and
`items_per_second` instead of dividing by zero, and a default `Item`
(id `None`, elapsed 0) from `min` and `max`; a non-empty counter's
`avg` equals its total elapsed divided by its count. -/
theorem counter_empty_defaults_and_avg :
    (∀ c : Counter, c.items = []
      → c.avg = 0 ∧ c.itemsPerSecond = 0
        ∧ c.minItem = { itemId := none, elapsed := 0 }
        ∧ c.maxItem = { itemId := none, elapsed := 0 })
    ∧ (∀ c : Counter, c.items ≠ []
      → c.avg = c.elapsedTotal / c.count) := by
  constructor
  · intro c h
    refine ⟨?_, ?_, ?_, ?_⟩
    · simp [Counter.avg, h]
    · simp [Counter.itemsPerSecond, h]
    · simp [Counter.minItem, h]
    · simp [Counter.maxItem, h]
  · intro c h
    simp [Counter.avg, h]

/-- Witness for C9: the empty counter and a two-item counter. -/
theorem counter_empty_defaults_and_avg_witness :
    (Counter.mk []).avg = 0
    ∧ (Counter.mk []).minItem = { itemId := none, elapsed := 0 }
    ∧ (Counter.mk [{ itemId := some "a", elapsed := 2 },
        { itemId := some "b", elapsed := 4 }]).avg
      = (Counter.mk [{ itemId := some "a", elapsed := 2 },
          { itemId := some "b", elapsed := 4 }]).elapsedTotal
        / (Counter.mk [{ itemId := some "a", elapsed := 2 },
            { itemId := some "b", elapsed := 4 }]).count := by
  refine ⟨?_, ?_, ?_⟩
  · exact (counter_empty_defaults_and_avg.1 (Counter.mk []) rfl).1
  · exact (counter_empty_defaults_and_avg.1 (Counter.mk []) rfl).2.2.1
  · exact counter_empty_defaults_and_avg.2
      (Counter.mk [{ itemId := some "a", elapsed := 2 },
        { itemId := some "b", elapsed := 4 }]) (by simp)
